import Mathlib

/-!
Verification development for the Reddit commenter bot.

Shallow embedding of the Python sources (`bot_core.py`, `ui.py`,
`scraper_utils.py`, `modes.py`) as executable Lean definitions, followed by
theorems about the embedded program.  File contents (the persisted dedup log,
the prompt template), network responses and thread scheduling are modelled as
explicit parameters or as transition relations; machine-level concerns do not
arise (the program manipulates strings and sets only).
-/

namespace RedditCommenter

/-! ## Python string primitives used by the sources -/

/-- The whitespace characters stripped by Python `str.strip()` (ASCII range;
the ids and lines handled by the bot are ASCII). -/
def isPySpace (c : Char) : Bool :=
  c = ' ' || c = '\t' || c = '\n' || c = '\r' || c = '\x0b' || c = '\x0c'

/-- Python `str.strip()`: remove leading and trailing whitespace. -/
def pyStrip (s : String) : String :=
  String.mk (((s.data.dropWhile isPySpace).reverse.dropWhile isPySpace).reverse)

/-- Python `str.lower()`, character by character (ASCII case folding, which
covers the configured keywords and comment bodies the bot compares). -/
def pyLower (s : String) : String :=
  String.mk (s.data.map Char.toLower)

/-- Python truthiness of an `Optional[str]`: `None` and the empty string are
falsy. -/
def truthyOpt : Option String → Bool
  | none => false
  | some s => s ≠ ""

/-- Python's substring test `needle in hay` (contiguous substring). -/
def containsSub (hay needle : List Char) : Bool :=
  if needle.isPrefixOf hay then true
  else
    match hay with
    | [] => false
    | _ :: t => containsSub t needle

theorem containsSub_iff (hay needle : List Char) :
    containsSub hay needle = true ↔ needle <:+: hay := by
  induction hay with
  | nil =>
    rw [containsSub]
    constructor
    · intro h
      split at h
      · rename_i hp
        exact (List.isPrefixOf_iff_prefix.mp hp).isInfix
      · exact absurd h (by simp)
    · intro h
      have : needle = [] := List.eq_nil_of_infix_nil h
      subst this
      simp [List.isPrefixOf]
  | cons a t ih =>
    rw [containsSub]
    constructor
    · intro h
      split at h
      · rename_i hp
        exact (List.isPrefixOf_iff_prefix.mp hp).isInfix
      · exact (List.infix_cons_iff.mpr (Or.inr (ih.mp h)))
    · intro h
      rcases List.infix_cons_iff.mp h with hpre | hinf
      · simp [List.isPrefixOf_iff_prefix.mpr hpre]
      · split
        · rfl
        · exact ih.mpr hinf

/-! ## Dedup store (`RedditBot._load_replied_ids` / `has_already_replied` /
`record_reply`, bot_core.py lines 184-237)

The persisted file `replied_comments.txt` is modelled by its list of text
lines (`none` when the file does not exist); `record_reply` appends the line
`f"{comment_id}\n"`, i.e. the single line `comment_id` whenever the id holds
no newline (the hypotheses of the theorems below record this).  The Python
`set` cache is modelled as a list with membership semantics; `set.add`
appends. -/

structure BotState where
  repliedFile : Option (List String)
  repliedIdsCache : List String
  deriving Repr, DecidableEq

/-- A fresh `RedditBot.__init__`: empty cache over a given persisted file. -/
def freshBot (file : Option (List String)) : BotState :=
  { repliedFile := file, repliedIdsCache := [] }

/-- The set comprehension `{line.strip() for line in file if line.strip()}`. -/
def fileIds (lines : List String) : List String :=
  (lines.map pyStrip).filter (fun l => l ≠ "")

/-- `RedditBot._load_replied_ids`: no-op when the cache is non-empty (Python
truthiness of a set), otherwise load the persisted file, a missing file
meaning the empty set (`except FileNotFoundError`). -/
def loadRepliedIds (s : BotState) : BotState :=
  if s.repliedIdsCache ≠ [] then s
  else
    match s.repliedFile with
    | none => { s with repliedIdsCache := [] }
    | some lines => { s with repliedIdsCache := fileIds lines }

/-- `RedditBot.has_already_replied`: load, then test membership.  Returns the
updated state together with the answer. -/
def hasAlreadyReplied (s : BotState) (commentId : String) : BotState × Bool :=
  let s' := loadRepliedIds s
  (s', decide (commentId ∈ s'.repliedIdsCache))

/-- `RedditBot.record_reply`: add the id to the cache and append the line
`f"{comment_id}\n"` to the persisted file (append mode creates the file when
missing). -/
def recordReply (s : BotState) (commentId : String) : BotState :=
  { s with
    repliedIdsCache := s.repliedIdsCache ++ [commentId]
    repliedFile := some ((s.repliedFile.getD []) ++ [commentId]) }

/-- An id the bot actually handles: non-empty, no surrounding whitespace (so
`strip` leaves it unchanged) and no embedded newline (so it occupies a single
line of the log).  Reddit comment ids are base-36 tokens. -/
def GoodId (id : String) : Prop :=
  pyStrip id = id ∧ id ≠ "" ∧ '\n' ∉ id.data

/-- Helper shared by the dedup theorems: after `record_reply id` the cache
holds `id` and is non-empty, so `has_already_replied id` answers `true`
without reloading. -/
theorem hasAfterRecord (s : BotState) (id : String) :
    (hasAlreadyReplied (recordReply s id) id).2 = true := by
  simp [hasAlreadyReplied, recordReply, loadRepliedIds]

theorem fileIds_append_good (lines : List String) (id : String)
    (h1 : pyStrip id = id) (h2 : id ≠ "") :
    fileIds (lines ++ [id]) = fileIds lines ++ [id] := by
  simp [fileIds, List.filter_append, h1, h2]

/-- C1: for every comment id, `record(id)` followed by `has(id)` is `true`,
both within the same run and in a fresh `RedditBot` instance that reloads the
persisted log file written by the first run; and on a missing persisted log
file the store behaves as empty (every `has` answers `false`) rather than
raising an error. -/
theorem c1_record_then_has (s : BotState) (id : String) (h : GoodId id) :
    (hasAlreadyReplied (recordReply s id) id).2 = true
    ∧ (hasAlreadyReplied (freshBot (recordReply s id).repliedFile) id).2 = true
    ∧ ∀ other : String, (hasAlreadyReplied (freshBot none) other).2 = false := by
  refine ⟨hasAfterRecord s id, ?_, ?_⟩
  · simp [hasAlreadyReplied, freshBot, loadRepliedIds, recordReply,
      fileIds_append_good _ id h.1 h.2.1]
  · intro other
    simp [hasAlreadyReplied, freshBot, loadRepliedIds]

theorem c1_record_then_has_witness :
    GoodId "abc123"
    ∧ ((hasAlreadyReplied (recordReply (freshBot none) "abc123") "abc123").2 = true
      ∧ (hasAlreadyReplied
          (freshBot (recordReply (freshBot none) "abc123").repliedFile) "abc123").2 = true
      ∧ ∀ other : String, (hasAlreadyReplied (freshBot none) other).2 = false) :=
  ⟨⟨by decide, by decide, by decide⟩,
    c1_record_then_has (freshBot none) "abc123" ⟨by decide, by decide, by decide⟩⟩

/-- C10: the lazy cache load is gated on the in-memory cache being empty, so
in a fresh `RedditBot` instance where `record(id1)` runs before any `has`
call, the persisted log is never loaded: `has(id2)` answers `false` for an
`id2` that sits in the persisted log from earlier runs but differs from
`id1`. -/
theorem c10_record_first_skips_load (lines : List String) (id1 id2 : String)
    (hne : id2 ≠ id1) (_hin : id2 ∈ fileIds lines) :
    (hasAlreadyReplied (recordReply (freshBot (some lines)) id1) id2).2 = false := by
  simp [hasAlreadyReplied, recordReply, freshBot, loadRepliedIds, hne]

theorem c10_record_first_skips_load_witness :
    ("zzz" : String) ≠ "a" ∧ "zzz" ∈ fileIds ["zzz"]
    ∧ (hasAlreadyReplied (recordReply (freshBot (some ["zzz"])) "a") "zzz").2 = false :=
  ⟨by decide, by decide,
    c10_record_first_skips_load ["zzz"] "a" "zzz" (by decide) (by decide)⟩

/-! ## Thread context (`get_thread_context`, bot_core.py lines 79-106)

A live `praw` comment exposes its submission and a parent chain; the `while`
loop collects `parent_comments = [parent, grandparent, ..., top-level]` and
then reverses the list.  A `Comment` is therefore modelled with its submission
and with `parents`, the chain in the order the loop visits it (nearest parent
first); an absent author object is `none`. -/

structure Submission where
  title : String
  selftext : String
  deriving Repr, DecidableEq

structure CommentNode where
  author : Option String
  body : String
  deriving Repr, DecidableEq

structure Comment where
  id : String
  author : Option String
  body : String
  submission : Submission
  parents : List CommentNode
  deriving Repr, DecidableEq

/-- `x.author.name if x.author else "[deleted]"`. -/
def authorName : Option String → String
  | some name => name
  | none => "[deleted]"

/-- The two submission lines of `context_parts`; `submission.selftext or
'[No submission body]'` (Python `or`: the empty string is falsy). -/
def submissionParts (s : Submission) : List String :=
  ["Submission Title: " ++ s.title,
   "Submission Body: " ++ (if s.selftext = "" then "[No submission body]" else s.selftext)]

/-- One `Parent Comment {index} by {author}:\n{body}` block. -/
def parentBlock (index : Nat) (pc : CommentNode) : String :=
  "Parent Comment " ++ toString index ++ " by " ++ authorName pc.author ++ ":\n" ++ pc.body

/-- The final `Trigger Comment by {author}:\n{body}` block. -/
def triggerBlock (c : Comment) : String :=
  "Trigger Comment by " ++ authorName c.author ++ ":\n" ++ c.body

/-- The `context_parts` list built by `get_thread_context`: the two submission
lines, then `enumerate(parent_comments, start=1)` rendered root-to-trigger,
then the trigger block. -/
def contextParts (c : Comment) : List String :=
  submissionParts c.submission
    ++ (List.enumFrom 1 c.parents.reverse).map (fun p => parentBlock p.1 p.2)
    ++ [triggerBlock c]

/-- `get_thread_context`: `"\n\n".join(context_parts)`. -/
def getThreadContext (c : Comment) : String :=
  String.intercalate "\n\n" (contextParts c)

/-- C5: for a trigger comment with `n` comment ancestors the context consists
of the submission block followed by exactly `n + 1` comment blocks; block `i`
(counting from 0) renders the `i`-th ancestor in root-to-trigger order with
1-based index `i + 1`, the trigger block comes last, and a missing author
renders as the literal `[deleted]` placeholder. -/
theorem c5_context_shape (c : Comment) :
    (contextParts c).take 2 = submissionParts c.submission
    ∧ ((contextParts c).drop 2).length = c.parents.length + 1
    ∧ (∀ i : Nat, ∀ pc : CommentNode, c.parents.reverse[i]? = some pc →
        ((contextParts c).drop 2)[i]? = some (parentBlock (i + 1) pc))
    ∧ ((contextParts c).drop 2).getLast? = some (triggerBlock c)
    ∧ (∀ index : Nat, ∀ pc : CommentNode, pc.author = none →
        parentBlock index pc
          = "Parent Comment " ++ toString index ++ " by " ++ "[deleted]" ++ ":\n" ++ pc.body)
    ∧ (c.author = none →
        triggerBlock c = "Trigger Comment by " ++ "[deleted]" ++ ":\n" ++ c.body) := by
  have hdrop : (contextParts c).drop 2
      = (List.enumFrom 1 c.parents.reverse).map (fun p => parentBlock p.1 p.2)
        ++ [triggerBlock c] := by
    simp [contextParts, submissionParts]
  refine ⟨by simp [contextParts, submissionParts], ?_, ?_, ?_, ?_, ?_⟩
  · simp [hdrop]
  · intro i pc hpc
    have hi : i < c.parents.reverse.length := by
      by_contra hle
      rw [List.getElem?_eq_none (Nat.le_of_not_lt hle)] at hpc
      exact Option.noConfusion hpc
    have hlen : i < ((List.enumFrom 1 c.parents.reverse).map
        (fun p => parentBlock p.1 p.2)).length := by
      simpa [List.enumFrom_length] using hi
    rw [hdrop, List.getElem?_append, if_pos hlen, List.getElem?_map,
      List.getElem?_enumFrom, hpc]
    simp [Nat.add_comm 1 i]
  · rw [hdrop]
    simp
  · intro index pc hnone
    simp [parentBlock, hnone, authorName]
  · intro hnone
    simp [triggerBlock, hnone, authorName]

/-- A concrete trigger comment: two ancestors, deleted authors on the root
ancestor and on the trigger itself. -/
def demoComment : Comment :=
  { id := "t1", author := none, body := "trigger body",
    submission := { title := "T", selftext := "" },
    parents := [{ author := some "u2", body := "p2" },
                { author := none, body := "p1" }] }

theorem c5_context_shape_witness :
    demoComment.parents.reverse[0]? = some { author := none, body := "p1" }
    ∧ ((contextParts demoComment).drop 2).length = demoComment.parents.length + 1
    ∧ ((contextParts demoComment).drop 2)[0]?
        = some (parentBlock 1 { author := none, body := "p1" })
    ∧ parentBlock 1 { author := none, body := "p1" }
        = "Parent Comment 1 by [deleted]:\np1"
    ∧ triggerBlock demoComment = "Trigger Comment by [deleted]:\ntrigger body" := by
  refine ⟨by decide, (c5_context_shape demoComment).2.1, ?_, ?_, ?_⟩
  · exact (c5_context_shape demoComment).2.2.1 0 _ (by decide)
  · have h := (c5_context_shape demoComment).2.2.2.2.1 1
      { author := none, body := "p1" } rfl
    rw [h]
    decide
  · have h := (c5_context_shape demoComment).2.2.2.2.2 rfl
    rw [h]
    decide

/-! ## Generation adapter (`_call_openai_api` / `generate_ai_comment`,
bot_core.py lines 57-66 and 109-172)

The HTTP exchange is external: its observable outcome is either a raised
`requests.RequestException` or a decoded JSON document, of which the code
reads `choices[0].get("message", {}).get("content")`.  `OPENAI_API_KEY` comes
from the environment (`None` when unset). -/

structure ApiMessage where
  content : Option String
  deriving Repr, DecidableEq

structure ApiChoice where
  message : Option ApiMessage
  deriving Repr, DecidableEq

structure ApiResponse where
  choices : List ApiChoice
  deriving Repr, DecidableEq

inductive ApiOutcome where
  | requestError
  | ok (resp : ApiResponse)
  deriving Repr, DecidableEq

/-- `FALLBACK_REPLY` (bot_core.py lines 61-66). -/
def FALLBACK_REPLY : String :=
  "From a conservative viewpoint, the core of this issue seems to be about personal "
  ++ "responsibility rather than a need for more regulation. Individuals should have "
  ++ "the freedom to make their own choices, and the market will often provide a better "
  ++ "solution than a government program."

/-- `_call_openai_api(prompt)`: `None` when the key is unset (Python truthiness),
when the request raises, when `choices` is empty, and when the extracted
content is absent or empty (`if not content`); otherwise `content.strip()`.
The prompt is sent over the wire; the decoded outcome stands for the server's
behaviour, so the result does not depend on `prompt` beyond that. -/
def pyCallOpenaiApi (apiKey : Option String) (_prompt : String)
    (outcome : ApiOutcome) : Option String :=
  if truthyOpt apiKey = false then none
  else
    match outcome with
    | ApiOutcome.requestError => none
    | ApiOutcome.ok resp =>
      match resp.choices with
      | [] => none
      | choice :: _ =>
        match choice.message with
        | none => none
        | some message =>
          match message.content with
          | none => none
          | some content => if content = "" then none else some (pyStrip content)

/-- The prompt built by `generate_ai_comment` (`"...".format(thread_context=...)`). -/
def aiPrompt (threadContext : String) : String :=
  "Analyze the following Reddit thread and provide a concise conservative response.\n"
  ++ "Thread context:\n" ++ threadContext

/-- The world outside the generation call: the configured credential and the
outcome of the one HTTP exchange. -/
structure World where
  apiKey : Option String
  apiOutcome : ApiOutcome
  deriving Repr, DecidableEq

/-- `generate_ai_comment(thread_context)`: the API reply when truthy, else
`FALLBACK_REPLY` (`if ai_reply` is falsy for both `None` and `""`). -/
def generateAiComment (w : World) (threadContext : String) : String :=
  match pyCallOpenaiApi w.apiKey (aiPrompt threadContext) w.apiOutcome with
  | some aiReply => if aiReply = "" then FALLBACK_REPLY else aiReply
  | none => FALLBACK_REPLY

/-! ## Comment evaluation (`RedditBot._evaluate_comment`, bot_core.py
lines 265-291) -/

/-- The startup configuration: `KEYWORDS` (already stripped and lower-cased by
the config loader, lines 51-55) and the authenticated username (which stays
`None` when `authenticate` could not determine it). -/
structure BotConfig where
  keywords : List String
  currentUsername : Option String
  deriving Repr, DecidableEq

structure PendingReply where
  comment : Comment
  matchedKeyword : String
  threadContext : String
  suggestedReply : String
  deriving Repr, DecidableEq

/-- `RedditBot._evaluate_comment`: drop own comments (`if self.current_username
and author_name == self.current_username`), drop already-replied ids, scan the
lower-cased body with `next((kw for kw in KEYWORDS if kw in body_lower), None)`,
and on a match build the context, generate the reply and return the
`PendingReply`.  Returns the dedup-store state alongside. -/
def evaluateComment (cfg : BotConfig) (w : World) (st : BotState) (c : Comment) :
    BotState × Option PendingReply :=
  if truthyOpt cfg.currentUsername && decide (c.author = cfg.currentUsername) then
    (st, none)
  else
    let checked := hasAlreadyReplied st c.id
    if checked.2 then (checked.1, none)
    else
      let bodyLower := pyLower c.body
      match cfg.keywords.find? (fun kw => containsSub bodyLower.data kw.data) with
      | none => (checked.1, none)
      | some kw =>
        let ctx := getThreadContext c
        (checked.1,
         some { comment := c, matchedKeyword := kw, threadContext := ctx,
                suggestedReply := generateAiComment w ctx })

/-- Helper: a successful `find?` returns the first satisfying element. -/
theorem find?_first {α : Type} (p : α → Bool) (l : List α) (a : α)
    (h : l.find? p = some a) :
    p a = true ∧ ∃ pre post, l = pre ++ a :: post ∧ ∀ x ∈ pre, p x = false := by
  induction l with
  | nil => simp [List.find?] at h
  | cons b t ih =>
    cases hb : p b with
    | true =>
      simp only [List.find?, hb] at h
      injection h with h
      subst h
      exact ⟨hb, [], t, rfl, by simp⟩
    | false =>
      simp only [List.find?, hb] at h
      obtain ⟨hpa, pre, post, heq, hpre⟩ := ih h
      refine ⟨hpa, b :: pre, post, by simp [heq], ?_⟩
      intro x hx
      rcases List.mem_cons.mp hx with hxb | hxpre
      · subst hxb
        exact hb
      · exact hpre x hxpre

/-- C4: whenever the generation call fails — missing credential, transport
error, empty `choices`, missing message or content, empty content — the reply
text is the fixed fallback string, and consequently the generated text, hence
every emitted `PendingReply.suggested_reply`, is non-empty. -/
theorem c4_generation_fallback (w : World) (ctx : String) :
    (pyCallOpenaiApi w.apiKey (aiPrompt ctx) w.apiOutcome = none
        ∨ pyCallOpenaiApi w.apiKey (aiPrompt ctx) w.apiOutcome = some "" →
      generateAiComment w ctx = FALLBACK_REPLY)
    ∧ (truthyOpt w.apiKey = false →
        pyCallOpenaiApi w.apiKey (aiPrompt ctx) w.apiOutcome = none)
    ∧ (w.apiOutcome = ApiOutcome.requestError →
        pyCallOpenaiApi w.apiKey (aiPrompt ctx) w.apiOutcome = none)
    ∧ (∀ resp : ApiResponse, w.apiOutcome = ApiOutcome.ok resp →
        (resp.choices = []
          ∨ (∃ choice rest, resp.choices = choice :: rest ∧
              (choice.message = none
                ∨ ∃ message, choice.message = some message ∧
                    (message.content = none ∨ message.content = some ""))) →
          pyCallOpenaiApi w.apiKey (aiPrompt ctx) w.apiOutcome = none))
    ∧ generateAiComment w ctx ≠ ""
    ∧ (∀ (cfg : BotConfig) (st st' : BotState) (c : Comment) (p : PendingReply),
        evaluateComment cfg w st c = (st', some p) → p.suggestedReply ≠ "") := by
  have hfb : FALLBACK_REPLY ≠ "" := by decide
  have hneAll : ∀ t : String, generateAiComment w t ≠ "" := by
    intro t
    rw [generateAiComment]
    cases hres : pyCallOpenaiApi w.apiKey (aiPrompt t) w.apiOutcome with
    | none => exact hfb
    | some aiReply =>
      by_cases hr : aiReply = ""
      · simp only [if_pos hr]
        exact hfb
      · simp only [if_neg hr]
        exact hr
  refine ⟨?_, ?_, ?_, ?_, hneAll ctx, ?_⟩
  · intro h
    rcases h with h | h <;> simp [generateAiComment, h]
  · intro h
    simp [pyCallOpenaiApi, h]
  · intro h
    rw [pyCallOpenaiApi.eq_def, h]
    split <;> rfl
  · intro resp hresp hbad
    rcases hbad with hnil | ⟨choice, rest, hcons, hbad⟩
    · simp [pyCallOpenaiApi, hresp, hnil]
    · rcases hbad with hmsg | ⟨message, hmsg, hcontent⟩
      · simp [pyCallOpenaiApi, hresp, hcons, hmsg]
      · rcases hcontent with hc | hc <;>
          simp [pyCallOpenaiApi, hresp, hcons, hmsg, hc]
  · intro cfg st st' c p hev
    rw [evaluateComment] at hev
    split at hev
    · simp at hev
    · dsimp only at hev
      split at hev
      · simp at hev
      · split at hev
        · simp at hev
        · rw [Prod.mk.injEq, Option.some.injEq] at hev
          rw [← hev.2]
          exact hneAll (getThreadContext c)

theorem c4_generation_fallback_witness :
    pyCallOpenaiApi (World.mk none ApiOutcome.requestError).apiKey (aiPrompt "x")
        (World.mk none ApiOutcome.requestError).apiOutcome = none
    ∧ generateAiComment (World.mk none ApiOutcome.requestError) "x" = FALLBACK_REPLY :=
  ⟨by decide,
    (c4_generation_fallback (World.mk none ApiOutcome.requestError) "x").1
      (Or.inl (by decide))⟩

/-- C2: when `_evaluate_comment` emits a `PendingReply`, its matched keyword
occurs as a substring of the lower-cased body and is the first such keyword in
the configured list order (every earlier keyword does not occur); when no
configured keyword occurs in the lower-cased body, nothing is emitted. -/
theorem c2_first_keyword (cfg : BotConfig) (w : World) (st : BotState) (c : Comment) :
    (∀ p : PendingReply, (evaluateComment cfg w st c).2 = some p →
      p.matchedKeyword.data <:+: (pyLower c.body).data
      ∧ ∃ pre post, cfg.keywords = pre ++ p.matchedKeyword :: post
          ∧ ∀ kw ∈ pre, ¬ kw.data <:+: (pyLower c.body).data)
    ∧ ((∀ kw ∈ cfg.keywords, ¬ kw.data <:+: (pyLower c.body).data) →
        (evaluateComment cfg w st c).2 = none) := by
  constructor
  · intro p hp
    rw [evaluateComment] at hp
    split at hp
    · simp at hp
    · dsimp only at hp
      split at hp
      · simp at hp
      · split at hp
        · simp at hp
        · rename_i kw hfind
          rw [Option.some.injEq] at hp
          obtain ⟨hkw, pre, post, heq, hpre⟩ := find?_first _ _ _ hfind
          have hpkw : p.matchedKeyword = kw := by rw [← hp]
          rw [hpkw]
          refine ⟨(containsSub_iff _ _).mp hkw, pre, post, heq, ?_⟩
          intro k hk hinf
          have := hpre k hk
          rw [(containsSub_iff (pyLower c.body).data k.data).mpr hinf] at this
          exact Bool.noConfusion this
  · intro hnone
    have hfind : cfg.keywords.find? (fun kw => containsSub (pyLower c.body).data kw.data)
        = none := by
      rw [List.find?_eq_none]
      intro kw hkw hcontra
      exact hnone kw hkw ((containsSub_iff _ _).mp hcontra)
    rw [evaluateComment]
    split
    · rfl
    · dsimp only
      split
      · rfl
      · rw [hfind]

/-- The configuration used by the concrete evaluation witnesses. -/
def cfgDemo : BotConfig :=
  { keywords := ["free", "tax cuts"], currentUsername := some "bot1" }

def worldDemo : World := { apiKey := none, apiOutcome := ApiOutcome.requestError }

def c2Comment : Comment :=
  { id := "c1", author := some "u1", body := "I love Tax Cuts",
    submission := { title := "T", selftext := "B" }, parents := [] }

/-- The `PendingReply` that `_evaluate_comment` emits for `c2Comment`. -/
def c2Pending : PendingReply :=
  { comment := c2Comment, matchedKeyword := "tax cuts",
    threadContext := getThreadContext c2Comment,
    suggestedReply := FALLBACK_REPLY }

set_option maxRecDepth 100000 in
theorem c2_first_keyword_witness :
    (evaluateComment cfgDemo worldDemo (freshBot none) c2Comment).2 = some c2Pending
    ∧ (c2Pending.matchedKeyword.data <:+: (pyLower c2Comment.body).data
      ∧ ∃ pre post, cfgDemo.keywords = pre ++ c2Pending.matchedKeyword :: post
          ∧ ∀ kw ∈ pre, ¬ kw.data <:+: (pyLower c2Comment.body).data) :=
  ⟨by decide,
    (c2_first_keyword cfgDemo worldDemo (freshBot none) c2Comment).1 c2Pending (by decide)⟩

/-- C3: a comment authored by the bot's own (non-empty) authenticated identity
is dropped: no `PendingReply` is emitted and the dedup state is untouched,
whatever the body. -/
theorem c3_no_self_reply (cfg : BotConfig) (w : World) (st : BotState) (c : Comment)
    (u : String) (hu : cfg.currentUsername = some u) (hne : u ≠ "")
    (ha : c.author = some u) :
    evaluateComment cfg w st c = (st, none) := by
  rw [evaluateComment, if_pos]
  rw [hu, ha, truthyOpt]
  simp [hne]

def selfComment : Comment :=
  { id := "c9", author := some "bot1", body := "tax cuts are free",
    submission := { title := "T", selftext := "B" }, parents := [] }

theorem c3_no_self_reply_witness :
    cfgDemo.currentUsername = some "bot1" ∧ ("bot1" : String) ≠ ""
    ∧ selfComment.author = some "bot1"
    ∧ evaluateComment cfgDemo worldDemo (freshBot none) selfComment = (freshBot none, none) :=
  ⟨rfl, by decide, rfl,
    c3_no_self_reply cfgDemo worldDemo (freshBot none) selfComment "bot1" rfl (by decide) rfl⟩

/-! ## Posting (`RedditBot.post_reply`, bot_core.py lines 293-306, and
`BotUI.on_skip`, ui.py lines 198-204)

The publishing capability `pending.comment.reply(body=...)` is external and
may raise; it is modelled as a function from the reply body to an exception or
success.  `post_reply` publishes first and records the comment id in the dedup
store only afterwards, so a raised publish leaves the store untouched. -/

/-- `reply_body = reply_text or pending.suggested_reply` (Python `or`: `None`
and the empty string fall back). -/
def postReplyBody (pending : PendingReply) (replyText : Option String) : String :=
  match replyText with
  | some t => if t = "" then pending.suggestedReply else t
  | none => pending.suggestedReply

/-- `RedditBot.post_reply`: publish, then `record_reply(pending.comment.id)`.
The dedup-store state is returned alongside the outcome; when the publish
raises, `record_reply` is never reached. -/
def postReply (publish : String → Except String Unit) (st : BotState)
    (pending : PendingReply) (replyText : Option String) :
    BotState × Except String Unit :=
  match publish (postReplyBody pending replyText) with
  | Except.error e => (st, Except.error e)
  | Except.ok _ => (recordReply st pending.comment.id, Except.ok ())

/-- `BotUI.on_skip`: clear the current item (status message and display only);
the bot's dedup store is never consulted. -/
def onSkip (st : BotState) (current : Option PendingReply) :
    BotState × Option PendingReply :=
  match current with
  | none => (st, none)
  | some _ => (st, none)

/-- C9: posting and dedup recording happen publish-then-record — when the
posting call raises, the dedup store is returned unchanged (the id of an
unsent reply is never recorded); when it succeeds, the state is exactly
`record_reply` of the old state, after which `has` answers `true`; and Skip
discards the current item with the dedup store untouched. -/
theorem c9_publish_then_record (publish : String → Except String Unit)
    (st : BotState) (pending : PendingReply) (replyText : Option String) :
    (∀ e : String, publish (postReplyBody pending replyText) = Except.error e →
      postReply publish st pending replyText = (st, Except.error e))
    ∧ (publish (postReplyBody pending replyText) = Except.ok () →
      postReply publish st pending replyText
          = (recordReply st pending.comment.id, Except.ok ())
      ∧ (hasAlreadyReplied (postReply publish st pending replyText).1
          pending.comment.id).2 = true)
    ∧ (∀ current : Option PendingReply, (onSkip st current).1 = st) := by
  refine ⟨?_, ?_, ?_⟩
  · intro e he
    rw [postReply, he]
  · intro hok
    constructor
    · rw [postReply, hok]
    · rw [postReply, hok]
      exact hasAfterRecord st pending.comment.id
  · intro current
    cases current <;> rfl

theorem c9_publish_then_record_witness :
    ((fun _ : String => (Except.error "boom" : Except String Unit))
        (postReplyBody c2Pending none) = Except.error "boom")
    ∧ postReply (fun _ => Except.error "boom") (freshBot none) c2Pending none
        = (freshBot none, Except.error "boom") :=
  ⟨rfl,
    (c9_publish_then_record (fun _ => Except.error "boom") (freshBot none) c2Pending none).1
      "boom" rfl⟩

/-! ## Approval concurrency (`BotUI.on_approve` and `_poster`, ui.py
lines 169-204)

The UI runs `on_approve` on the Tk main loop; each approval spawns a transient
poster thread which posts inside `with self._posting_lock`.  The interleaving
is modelled as a transition system: a poster task is `waiting` between its
spawn and its lock acquisition, `posting` while it holds the lock inside the
`with` block, and `done` after the `finally` clause releases the lock. -/

inductive TaskPhase where
  | waiting
  | posting
  | done
  deriving Repr, DecidableEq

structure UIState where
  lockHeld : Bool
  tasks : List TaskPhase
  currentPending : Option String
  buttonsEnabled : Bool
  deriving Repr, DecidableEq

/-- `BotUI.__init__`: no current item, no poster tasks, lock free. -/
def initUIState : UIState :=
  { lockHeld := false, tasks := [], currentPending := none, buttonsEnabled := false }

/-- `BotUI.on_approve` up to `threading.Thread(target=_poster).start()`:
return unchanged when there is no current item or when
`self._posting_lock.locked()`; otherwise disable the action buttons and spawn
a poster task (not yet holding the lock). -/
def onApprove (s : UIState) : UIState :=
  if s.currentPending = none then s
  else if s.lockHeld then s
  else { s with buttonsEnabled := false, tasks := s.tasks ++ [TaskPhase.waiting] }

/-- One scheduler step of the UI/poster system. -/
inductive UIStep : UIState → UIState → Prop where
  /-- The operator clicks Approve & Post. -/
  | approve (s : UIState) : UIStep s (onApprove s)
  /-- A spawned poster enters `with self._posting_lock`, possible only while
  the lock is free. -/
  | acquire (s : UIState) (i : Nat) (hw : s.tasks[i]? = some TaskPhase.waiting)
      (hl : s.lockHeld = false) :
      UIStep s { s with lockHeld := true, tasks := s.tasks.set i TaskPhase.posting }
  /-- A poster finishes: the `finally` clause clears the current item and the
  `with` block releases the lock. -/
  | finish (s : UIState) (i : Nat) (hp : s.tasks[i]? = some TaskPhase.posting) :
      UIStep s { s with lockHeld := false, tasks := s.tasks.set i TaskPhase.done,
                        currentPending := none, buttonsEnabled := false }
  /-- `_poll_queue` / `_display_pending` surfaces a buffered item when none is
  current. -/
  | display (s : UIState) (p : String) (h : s.currentPending = none) :
      UIStep s { s with currentPending := some p, buttonsEnabled := true }
  /-- `on_skip` discards the current item. -/
  | skip (s : UIState) :
      UIStep s { s with currentPending := none, buttonsEnabled := false }

inductive ReachableUI : UIState → Prop where
  | init : ReachableUI initUIState
  | step {s t : UIState} : ReachableUI s → UIStep s t → ReachableUI t

/-- At most one poster task is inside the `with self._posting_lock` block, and
none is when the lock is free. -/
def PostingInv (s : UIState) : Prop :=
  (s.lockHeld = false → ∀ i : Nat, s.tasks[i]? ≠ some TaskPhase.posting)
  ∧ ∀ i j : Nat, s.tasks[i]? = some TaskPhase.posting →
      s.tasks[j]? = some TaskPhase.posting → i = j

theorem postingInv_init : PostingInv initUIState := by
  unfold PostingInv
  constructor
  · intro _ i
    simp [initUIState]
  · intro i j hi
    simp [initUIState] at hi

theorem postingInv_step {s t : UIState} (hs : PostingInv s) (hstep : UIStep s t) :
    PostingInv t := by
  unfold PostingInv at hs ⊢
  obtain ⟨hfree, huniq⟩ := hs
  cases hstep with
  | approve =>
    rw [onApprove]
    split
    · exact ⟨hfree, huniq⟩
    · split
      · exact ⟨hfree, huniq⟩
      · have hkey : ∀ k : Nat,
            (s.tasks ++ [TaskPhase.waiting])[k]? = some TaskPhase.posting →
            s.tasks[k]? = some TaskPhase.posting := by
          intro k hk
          rw [List.getElem?_append] at hk
          split at hk
          · exact hk
          · rcases Nat.lt_or_ge (k - s.tasks.length) 1 with h1 | h1
            · interval_cases h : k - s.tasks.length
              · simp at hk
            · rw [List.getElem?_eq_none (by simpa using h1)] at hk
              exact Option.noConfusion hk
        exact ⟨fun hl k hk => hfree hl k (hkey k hk),
              fun i j hi hj => huniq i j (hkey i hi) (hkey j hj)⟩
  | acquire i hw hl =>
    constructor
    · intro hcontra
      simp at hcontra
    · intro a b ha hb
      have hlen : i < s.tasks.length := by
        by_contra hge
        rw [List.getElem?_eq_none (Nat.le_of_not_lt hge)] at hw
        exact Option.noConfusion hw
      have key : ∀ k : Nat, (s.tasks.set i TaskPhase.posting)[k]?
          = some TaskPhase.posting → k = i := by
        intro k hk
        by_contra hki
        rw [List.getElem?_set_ne (fun h => hki h.symm)] at hk
        exact hfree hl k hk
      rw [key a ha, key b hb]
  | finish i hp =>
    have key : ∀ k : Nat, (s.tasks.set i TaskPhase.done)[k]?
        ≠ some TaskPhase.posting := by
      intro k hk
      by_cases hki : i = k
      · subst hki
        have hlen : i < s.tasks.length := by
          by_contra hge
          rw [List.getElem?_eq_none (Nat.le_of_not_lt hge)] at hp
          exact Option.noConfusion hp
        rw [List.getElem?_set_eq_of_lt _ hlen] at hk
        exact Option.noConfusion hk fun h => TaskPhase.noConfusion h
      · rw [List.getElem?_set_ne hki] at hk
        have := huniq k i hk hp
        exact hki this.symm
    exact ⟨fun _ k => key k, fun a b ha _ => absurd ha (key a)⟩
  | display p h => exact ⟨hfree, huniq⟩
  | skip => exact ⟨hfree, huniq⟩

/-- C8: in every reachable interleaving, while a posting task is in flight the
posting lock is held and a further Approve is ignored — `on_approve` returns
without spawning a task or changing anything — so at most one poster task is
ever inside the posting critical section at a time. -/
theorem c8_single_post_in_flight (s : UIState) (hreach : ReachableUI s) :
    (s.lockHeld = true → onApprove s = s)
    ∧ (∀ i j : Nat, s.tasks[i]? = some TaskPhase.posting →
        s.tasks[j]? = some TaskPhase.posting → i = j)
    ∧ (∀ i : Nat, s.tasks[i]? = some TaskPhase.posting → s.lockHeld = true) := by
  have hinv : PostingInv s := by
    induction hreach with
    | init => exact postingInv_init
    | step _ hstep ih => exact postingInv_step ih hstep
  refine ⟨?_, hinv.2, ?_⟩
  · intro hl
    simp [onApprove, hl]
  · intro i hi
    by_contra hfalse
    exact hinv.1 (Bool.not_eq_true _ ▸ hfalse) i hi

/-- A reachable state with one poster inside the critical section: display an
item, approve it, and let the poster acquire the lock. -/
def lockedUIState : UIState :=
  { lockHeld := true, tasks := [TaskPhase.posting],
    currentPending := some "c1", buttonsEnabled := false }

theorem c8_single_post_in_flight_witness :
    ReachableUI lockedUIState
    ∧ (lockedUIState.lockHeld = true → onApprove lockedUIState = lockedUIState) := by
  have h1 : UIStep initUIState
      { initUIState with currentPending := some "c1", buttonsEnabled := true } :=
    UIStep.display initUIState "c1" rfl
  have h2 : UIStep { initUIState with currentPending := some "c1", buttonsEnabled := true }
      { initUIState with currentPending := some "c1", buttonsEnabled := false,
                         tasks := [TaskPhase.waiting] } := by
    have := UIStep.approve
      { initUIState with currentPending := some "c1", buttonsEnabled := true }
    simpa [onApprove, initUIState] using this
  have h3 : UIStep
      { initUIState with currentPending := some "c1", buttonsEnabled := false,
                         tasks := [TaskPhase.waiting] } lockedUIState := by
    have := UIStep.acquire
      { initUIState with currentPending := some "c1", buttonsEnabled := false,
                         tasks := [TaskPhase.waiting] } 0 (by decide) rfl
    simpa [lockedUIState, initUIState] using this
  have hreach : ReachableUI lockedUIState :=
    ReachableUI.step (ReachableUI.step (ReachableUI.step ReachableUI.init h1) h2) h3
  exact ⟨hreach, (c8_single_post_in_flight lockedUIState hreach).1⟩

/-! ## Downward chain walk (`extract_chain` inside `get_comment_chain`,
scraper_utils.py lines 146-181)

The decoded Reddit listing is a list of items, each either a comment
(`kind == 't1'`, carrying id, author, body and a nested `replies` listing) or
something else (skipped by the `continue`).  The `replies` field of the JSON
is either a dict with children or a falsy value; both "falsy replies" and
"no children" lead to no recursion, which coincides with recursing into an
empty child list, so `replies` is modelled as the list of child items.

`extract_chain(comment_list, depth)` returns once `depth > 50`; the embedding
recurses structurally on the fuel `51 - depth`, which is `51` at the initial
call `extract_chain(comments_data)`.  The `found_target` flag only ever makes
the already-returning recursion unwind (each level `break`s after its single
recursive call), so it is the early `return` in the embedding. -/

mutual

inductive RItem : Type where
  | t1 : RComment → RItem
  | other : RItem

inductive RComment : Type where
  | mk : String → String → String → List RItem → RComment

end

def RComment.id : RComment → String
  | RComment.mk i _ _ _ => i

def RComment.author : RComment → String
  | RComment.mk _ a _ _ => a

def RComment.body : RComment → String
  | RComment.mk _ _ b _ => b

def RComment.replies : RComment → List RItem
  | RComment.mk _ _ _ r => r

/-- The `for item in comment_list: if item['kind'] != 't1': continue ...`
loop selects the first `t1` item; everything after processing it is `break`. -/
def firstT1 : List RItem → Option RComment
  | [] => none
  | RItem.t1 c :: _ => some c
  | RItem.other :: rest => firstT1 rest

/-- `if target_comment_id and comment_id == target_comment_id` (Python
truthiness: an absent or empty target never matches). -/
def targetHit (target : Option String) (commentId : String) : Bool :=
  match target with
  | none => false
  | some t => t ≠ "" && commentId = t

/-- `extract_chain`, fuel-indexed: fuel `51 - depth` makes `fuel = 0` the
`depth > 50` bound.  Appends `f"{author}: {body}"` for the first `t1` child,
stops after it when it matches the target, else recurses into its replies. -/
def extractChainAux (target : Option String) : Nat → List RItem → List String
  | 0, _ => []
  | fuel + 1, items =>
    match firstT1 items with
    | none => []
    | some c =>
      let block := c.author ++ ": " ++ c.body
      if targetHit target c.id then [block]
      else block :: extractChainAux target fuel c.replies

/-- The walk as started by `get_comment_chain`: `extract_chain(comments_data)`
with `depth = 0`. -/
def extractChain (target : Option String) (items : List RItem) : List String :=
  extractChainAux target 51 items

/-- The path of comments the walk visits when no target stops it: always the
first `t1` child of each level. -/
def chainPathAux : Nat → List RItem → List RComment
  | 0, _ => []
  | fuel + 1, items =>
    match firstT1 items with
    | none => []
    | some c => c :: chainPathAux fuel c.replies

/-- Truncate a path after (and including) the first comment the target
matches. -/
def takeThroughTarget (target : Option String) : List RComment → List RComment
  | [] => []
  | c :: rest =>
    if targetHit target c.id then [c]
    else c :: takeThroughTarget target rest

/-- Modelled from the spec: the selection rule §4.3 ascribes to the downward
walk — "at each level, select the child matching the target id if given, else
deterministically the first child returned; stop when the target is matched,
no children remain, or a defensive depth bound (e.g. 50) is reached".  When a
target id is given, the comment child with that id is selected; otherwise the
first comment child is. -/
def findT1ById (targetId : String) : List RItem → Option RComment
  | [] => none
  | RItem.t1 c :: rest =>
    if c.id = targetId then some c else findT1ById targetId rest
  | RItem.other :: rest => findT1ById targetId rest

/-- Modelled from the spec (continued): the walk §4.3 describes, with the same
output shape, stopping rules and depth bound as `extract_chain`, but selecting
the child matching the target id whenever a target is given. -/
def specSelectWalk (target : Option String) : Nat → List RItem → List String
  | 0, _ => []
  | fuel + 1, items =>
    let selected := match target with
      | some t => if t ≠ "" then findT1ById t items else firstT1 items
      | none => firstT1 items
    match selected with
    | none => []
    | some c =>
      let block := c.author ++ ": " ++ c.body
      if targetHit target c.id then [block]
      else block :: specSelectWalk target fuel c.replies

/-- Two sibling top-level comments; the target is the second. -/
def demoItems : List RItem :=
  [RItem.t1 (RComment.mk "a" "u" "x" []),
   RItem.t1 (RComment.mk "b" "v" "y" [])]

/-- C6 counterexample: with sibling children `a` (first) and `b` (the target),
the code walks to `a` — the first `t1` child — and never reaches `b`, while
the claimed selection rule ("select the child matching the target comment id
if a target is given") yields `b`; so the claim is false of `extract_chain`. -/
theorem c6_counterexample :
    extractChain (some "b") demoItems = ["u: x"]
    ∧ specSelectWalk (some "b") 51 demoItems = ["v: y"]
    ∧ extractChain (some "b") demoItems ≠ specSelectWalk (some "b") 51 demoItems := by
  refine ⟨by decide, by decide, by decide⟩

/-- C6 amended: at each level the walk selects the first `t1` child returned,
regardless of any target; the target only truncates: the emitted blocks are
exactly the no-target first-child path cut off inclusively at the first
comment whose id matches a given non-empty target, and the walk stops exactly
when that happens, when no `t1` children remain, or when the fuel `51 - depth`
runs out (the `depth > 50` bound), so at most 51 blocks are emitted. -/
theorem c6_first_child_walk (target : Option String) (fuel : Nat)
    (items : List RItem) :
    extractChainAux target fuel items
      = (takeThroughTarget target (chainPathAux fuel items)).map
          (fun c => c.author ++ ": " ++ c.body)
    ∧ (extractChain target items).length ≤ 51 := by
  have main : ∀ (n : Nat) (l : List RItem),
      extractChainAux target n l
        = (takeThroughTarget target (chainPathAux n l)).map
            (fun c => c.author ++ ": " ++ c.body) := by
    intro n
    induction n with
    | zero => intro l; rfl
    | succ m ih =>
      intro l
      rw [extractChainAux, chainPathAux]
      cases hfirst : firstT1 l with
      | none => rfl
      | some c =>
        dsimp only
        rw [takeThroughTarget]
        by_cases hhit : targetHit target c.id = true
        · rw [if_pos hhit, if_pos hhit]
          rfl
        · rw [if_neg hhit, if_neg hhit, List.map_cons, ih c.replies]
  have hlen : ∀ (n : Nat) (l : List RItem), (chainPathAux n l).length ≤ n := by
    intro n
    induction n with
    | zero => intro l; simp [chainPathAux]
    | succ m ih =>
      intro l
      rw [chainPathAux]
      cases firstT1 l with
      | none => simp
      | some c =>
        dsimp only
        rw [List.length_cons]
        exact Nat.succ_le_succ (ih c.replies)
  have htake : ∀ (path : List RComment),
      (takeThroughTarget target path).length ≤ path.length := by
    intro path
    induction path with
    | nil => simp [takeThroughTarget]
    | cons c rest ih =>
      rw [takeThroughTarget]
      by_cases hhit : targetHit target c.id = true
      · rw [if_pos hhit]
        simp
      · rw [if_neg hhit, List.length_cons, List.length_cons]
        exact Nat.succ_le_succ ih
  refine ⟨main fuel items, ?_⟩
  rw [extractChain, main 51 items, List.length_map]
  exact Nat.le_trans (htake _) (hlen 51 items)

/-! ## Modes and prompt-config resolution (`modes.py`)

`Mode` is the closed enumeration of conversation modes; `BASE_PROMPT_CONFIG`
and `MODE_PROMPT_OVERRIDES` are the base and per-mode placeholder tables, and
`get_prompt_config` layers them with `dict(...)` / `.update(...)` semantics. -/

inductive Mode where
  | agree
  | friendly
  | standard
  | dunk
  | fact_check
  deriving Repr, DecidableEq, Fintype

/-- `PROMPT_PLACEHOLDERS` (modes.py lines 65-72). -/
def PROMPT_PLACEHOLDERS : List String :=
  ["STANCE", "TONE", "MODE_SPECIFIC_GUIDANCE", "LENGTH_REQUIREMENT",
   "PHASE2_REQUIREMENTS", "PHASE4_LENGTH_TARGET"]

/-- `BASE_PROMPT_CONFIG` (modes.py lines 75-116); a Python `dict` of string
literals, modelled as an association list in insertion order. -/
def BASE_PROMPT_CONFIG : List (String × String) :=
  [("STANCE",
    "You are Misc1, taking a politically conservative stance on the issue being "
    ++ "argued. You're here to disagree and present a counter-perspective. Factual "
    ++ "accuracy outranks ideology: rely on verifiable evidence, do not twist data "
    ++ "to fit a narrative, and if the facts prove your starting position wrong, "
    ++ "concede that directly before rebuilding your case. Stay composed—never resort "
    ++ "to insults or inflammatory labels, avoid calling their argument 'desperate', "
    ++ "and do not accuse them of straw-manning or deflecting even if you believe "
    ++ "that's happening. Focus on dismantling their claims with evidence and reasoning, "
    ++ "and never imply you're insulted, offended, or pearl-clutching. Ground every "
    ++ "point in accurate sourcing, and if the facts show you were mistaken, acknowledge "
    ++ "it succinctly before presenting the correct information."),
   ("TONE",
    "STANDARD MODE: Be direct, fact-based, and to the point - think Ben Shapiro "
    ++ "style. Present your conservative perspective with clarity and confidence. "
    ++ "You're not here to be friendly, but you're also not overtly aggressive. "
    ++ "State facts, make logical arguments, and directly challenge flawed reasoning. "
    ++ "Use a matter-of-fact tone that says 'here's why you're wrong' without being "
    ++ "unnecessarily combative. Be assertive and unapologetic about your position, "
    ++ "but let the facts do the heavy lifting rather than personal attacks."),
   ("MODE_SPECIFIC_GUIDANCE", ""),
   ("LENGTH_REQUIREMENT",
    "LENGTH MATCHING IS MANDATORY: Your final comment MUST be approximately the "
    ++ "same length as the comment you're responding to (the last comment in the "
    ++ "chain). You may be 1-2 sentences longer, but NO MORE. This is about matching "
    ++ "the effort level of the person you're responding to."),
   ("PHASE2_REQUIREMENTS",
    "- Analyze the opponent's last comment in detail\n"
    ++ "- Identify their main claims, assumptions, and logical structure\n"
    ++ "- Assess the strength of their argument and potential weaknesses\n"
    ++ "- Consider how your research findings (if applicable) or logical reasoning "
    ++ "can effectively counter their points"),
   ("PHASE4_LENGTH_TARGET",
    "Set your target length: approximately the same length, or at most 1-2 "
    ++ "sentences longer")]

/-- `MODE_PROMPT_OVERRIDES` (modes.py lines 119-228): the per-mode override
tables; `STANDARD` has no entry, so `.get(mode, {})` yields the empty table. -/
def MODE_PROMPT_OVERRIDES : Mode → List (String × String)
  | Mode.friendly =>
    [("TONE",
      "FRIENDLY MODE: Sound calm, personable, and genuinely respectful while you "
      ++ "push back. Think friendly debate over coffee—acknowledge what they value, "
      ++ "then pivot to why your take makes more sense. Keep the language warm and "
      ++ "human, but remain confident, unwavering, and focused on changing their mind, "
      ++ "not conceding ground.")]
  | Mode.dunk =>
    [("TONE",
      "DUNK MODE: Be ruthless, cutting, and mercilessly critical. Call out weak "
      ++ "reasoning, expose logical fallacies by name, and demolish their argument "
      ++ "piece by piece. Use sharp, incisive language that leaves no room for their "
      ++ "position. Be unapologetically aggressive while staying factually grounded. "
      ++ "The goal is to completely dismantle their argument and make them regret "
      ++ "engaging. This is a debate, and you're here to win decisively.")]
  | Mode.agree =>
    [("STANCE",
      "AGREE MODE: You are aligned with the final commenter while staying true to "
      ++ "Misc1's core identity and non-negotiable beliefs. Reinforce their points, add "
      ++ "supporting context, and strengthen their position without undermining it. If "
      ++ "the original take drifts away from Misc1's hard boundaries, agree from your "
      ++ "own perspective—highlight compatible angles or gently reframe so the support "
      ++ "still reflects Misc1. Keep everything anchored in verifiable facts, and concede "
      ++ "openly if evidence shows the shared stance needs refinement."),
     ("TONE",
      "AGREE MODE TONE: Be encouraging, confident, and collaborative. Sound like a "
      ++ "thoughtful ally who appreciates the original point and is eager to build on "
      ++ "it with useful detail or personal insight. Reinforce confidently without a "
      ++ "pearl-clutching tone, and never imply you're insulted or offended. Support "
      ++ "their take with accurate information while making sure the agreement still "
      ++ "mirrors Misc1's persona, and acknowledge any missteps if the facts demand it."),
     ("MODE_SPECIFIC_GUIDANCE",
      "AGREE MODE DIRECTIVE: This is not a debate. Focus on amplifying and enhancing "
      ++ "the final comment rather than arguing against anyone, but always thread in "
      ++ "Misc1's point of view so you never contradict the persona's non-negotiables."),
     ("LENGTH_REQUIREMENT",
      "LENGTH FLEXIBILITY: Aim to match the length of the comment you're supporting, "
      ++ "but you may go up to roughly 150% of its length if needed to add meaningful "
      ++ "reinforcement or context."),
     ("PHASE2_REQUIREMENTS",
      "- Analyze the comment you're supporting and identify key points to amplify\n"
      ++ "- Consider how to add meaningful reinforcement or context\n"
      ++ "- Think about how to thread in Misc1's perspective while staying aligned"),
     ("PHASE4_LENGTH_TARGET",
      "Set your target length to roughly match the original comment, with "
      ++ "permission to go up to about 150% if that's helpful for reinforcement")]
  | Mode.fact_check =>
    [("STANCE",
      "FACT CHECK MODE: You are a conservative researcher conducting a critical review "
      ++ "of a Reddit post to determine if the title accurately reflects the linked content. "
      ++ "Your goal is to identify potential left-wing bias, misleading framing, selective "
      ++ "omission of context, or outright misrepresentation. Approach this as a researcher, "
      ++ "not as a debater. Your job is to read the source material carefully and compare it "
      ++ "to the post title/comment to assess accuracy and bias. Be meticulous and fair—if "
      ++ "the title is accurate, say so. If it's biased or misleading, document exactly how "
      ++ "with specific quotes and evidence from the source."),
     ("TONE",
      "FACT CHECK TONE: Be analytical, measured, and thorough. Think like an academic "
      ++ "researcher writing a critical analysis. Your tone should be objective and evidence-based, "
      ++ "presenting findings clearly and systematically. You are not here to argue or debate—you "
      ++ "are here to assess accuracy and identify bias. Use precise language and cite specific "
      ++ "examples from both the post title and the linked content."),
     ("MODE_SPECIFIC_GUIDANCE",
      "FACT CHECK DIRECTIVE: This is NOT a debate mode. Do NOT create a rebuttal or response "
      ++ "comment in this initial analysis. Your ONLY job is to:\n\n"
      ++ "1. Read the linked content thoroughly\n"
      ++ "2. Compare the post title (or comment) to what the source actually says\n"
      ++ "3. Identify any discrepancies, bias, misleading framing, or omissions\n"
      ++ "4. Document your findings with specific quotes and evidence\n"
      ++ "5. Provide a clear verdict: Accurate, Misleading, or Biased (with explanation)\n\n"
      ++ "Structure your analysis as:\n"
      ++ "- TITLE CLAIM: [What the Reddit title/comment claims]\n"
      ++ "- SOURCE CONTENT: [What the linked article/source actually says, with quotes]\n"
      ++ "- ANALYSIS: [Detailed comparison identifying any bias or misrepresentation]\n"
      ++ "- VERDICT: [Accurate/Misleading/Biased with reasoning]\n\n"
      ++ "If the user asks for a response in a follow-up message, THEN you will switch to "
      ++ "standard mode behavior and craft an appropriate rebuttal using the analysis you've "
      ++ "completed. But for THIS initial fact-check, analysis only—no response comment."),
     ("LENGTH_REQUIREMENT",
      "LENGTH FOR FACT CHECK: Be as thorough as necessary to complete the analysis. "
      ++ "This is not a comment that will be posted—it's an internal analysis for the user. "
      ++ "Prioritize completeness and accuracy over brevity."),
     ("PHASE2_REQUIREMENTS",
      "- Carefully read and analyze the linked source content\n"
      ++ "- Identify the core claims made in the post title/comment\n"
      ++ "- Compare title claims against actual source content\n"
      ++ "- Document specific quotes and evidence of any discrepancies or bias"),
     ("PHASE4_LENGTH_TARGET",
      "Your analysis should be as detailed as needed to thoroughly document your findings, "
      ++ "typically 3-6 paragraphs with specific evidence and quotes")]
  | Mode.standard => []

/-- First-match association-list lookup (Python `dict` access on the modelled
insertion-ordered table). -/
def dictLookup (d : List (String × String)) (key : String) : Option String :=
  match d.find? (fun kv => kv.1 = key) with
  | some kv => some kv.2
  | none => none

/-- `config = dict(BASE_PROMPT_CONFIG)` followed by `config.update(overrides)`:
existing keys keep their position but take the override's value (whole-value
replacement); keys new in `overrides` are appended in override order. -/
def dictUpdate (base overrides : List (String × String)) : List (String × String) :=
  base.map (fun kv =>
    match dictLookup overrides kv.1 with
    | some v => (kv.1, v)
    | none => kv)
  ++ overrides.filter (fun kv => (dictLookup base kv.1).isNone)

/-- `get_prompt_config` over explicit tables: layer, then check that every
required placeholder is present, failing with the list of missing keys. -/
def getPromptConfigTables (base overrides : List (String × String)) :
    Except (List String) (List (String × String)) :=
  let config := dictUpdate base overrides
  let missing := PROMPT_PLACEHOLDERS.filter (fun key => (dictLookup config key).isNone)
  if missing ≠ [] then Except.error missing else Except.ok config

/-- `get_prompt_config(mode)` (modes.py lines 231-242). -/
def getPromptConfig (mode : Mode) : Except (List String) (List (String × String)) :=
  getPromptConfigTables BASE_PROMPT_CONFIG (MODE_PROMPT_OVERRIDES mode)

/-! ## Template substitution (`load_llm_prompt`, scraper_utils.py lines 5-80)

`load_llm_prompt` reads `llm_prompt.txt`, assigns a default text to each of
eight replacement variables, reassigns some of them in its
`if mode == "friendly" / elif "dunk" / elif "agree"` blocks (any other mode
string, `"fact_check"` and `"standard"` included, keeps every default), and
then substitutes each `\x7b\x7bNAME\x7d\x7d` token with `str.replace`.  The
file content is a parameter of the embedding. -/

/-- Python `str.replace(old, new)` on character lists: scan left to right,
replacing each non-overlapping occurrence.  Structural fuel `hay.length`
bounds the scan (an empty `old` is never used by the program and is treated
as no occurrence here).  `acc` carries the output built so far, reversed. -/
def pyReplaceAux (needle repl : List Char) : Nat → List Char → List Char → List Char
  | 0, acc, hay => List.reverseAux acc hay
  | _ + 1, acc, [] => List.reverseAux acc []
  | fuel + 1, acc, h :: t =>
    if needle ≠ [] && needle.isPrefixOf (h :: t) then
      pyReplaceAux needle repl fuel (List.reverseAux repl acc) ((h :: t).drop needle.length)
    else pyReplaceAux needle repl fuel (h :: acc) t

def pyReplace (s pat repl : String) : String :=
  String.mk (pyReplaceAux pat.data repl.data s.data.length [] s.data)

/-- `stance_instruction` default (scraper_utils.py line 16). -/
def su_stance_default : String :=
  "Take a politically conservative stance on the issue being argued. You're here to disagree and present a counter-perspective."

/-- `tone_instruction` default (line 17). -/
def su_tone_default : String :=
  "STANDARD MODE: Be direct, fact-based, and to the point - think Ben Shapiro style. Present your conservative perspective with clarity and confidence. You're not here to be friendly, but you're also not overtly aggressive. State facts, make logical arguments, and directly challenge flawed reasoning. Use a matter-of-fact tone that says 'here's why you're wrong' without being unnecessarily combative. Be assertive and unapologetic about your position, but let the facts do the heavy lifting rather than personal attacks."

/-- `length_requirement` default (line 19). -/
def su_length_default : String :=
  "LENGTH MATCHING IS MANDATORY: Your final comment MUST be approximately the same length as the comment you're responding to (the last comment in the chain). You may be 1-2 sentences longer, but NO MORE. This is about matching the effort level of the person you're responding to."

/-- `phase2_requirements` default (lines 20-27). -/
def su_phase2_default : String :=
  "Show your strategic thinking:\n"
  ++ "- Analyze the opponent's last comment in detail\n"
  ++ "- Identify their main claims, assumptions, and logical structure\n"
  ++ "- Assess the strength of their argument and potential weaknesses\n"
  ++ "- Consider how your research findings (if applicable) or logical reasoning can effectively counter their points\n"
  ++ "- EXPLICITLY WRITE OUT your strategic analysis before moving to the next phase"

/-- `phase3_requirements` default (lines 28-35). -/
def su_phase3_default : String :=
  "Show your counter-response predictions:\n"
  ++ "- Identify ALL possible counter-responses the opponent might make to your reply\n"
  ++ "- Assign probability weights (%) to EACH potential counter-response\n"
  ++ "- List them out explicitly (e.g., \"Response A: 40%, Response B: 30%, Response C: 20%, Response D: 10%\")\n"
  ++ "- Explain which high-probability responses you will preemptively address and HOW\n"
  ++ "- SHOW ALL OF THIS ANALYSIS in your response before moving to the next phase"

/-- `phase4_length_target` default (line 36). -/
def su_phase4_length_default : String :=
  "Set your target length: approximately the same length, or at most 1-2 sentences longer"

/-- `phase4_counter_guidance` default (line 37). -/
def su_phase4_counter_default : String :=
  "- Explain how you'll preemptively address the most likely counter-responses in each draft"

/-- `stance_instruction` in the `friendly` branch (line 41). -/
def su_stance_friendly : String :=
  "Take the most objective, well-reasoned position on the topic, regardless of whether it strictly aligns with conservative ideology. Your goal is to find common ground and contribute meaningfully to the discussion."

/-- `tone_instruction` in the `friendly` branch (line 42). -/
def su_tone_friendly : String :=
  "FRIENDLY MODE: Use a warm, thoughtful, and genuinely respectful tone. You're here to share insights and engage in meaningful dialogue. Be personable and open-minded - like you're having a conversation with a friend over coffee. Focus on understanding their perspective while offering your own thoughtful take. Use phrases like 'That's an interesting point,' 'I can see where you're coming from,' 'Here's how I think about it,' or 'What if we considered...' Avoid any hint of confrontation or debate."

/-- `stance_instruction` in the `dunk` branch (line 44). -/
def su_stance_dunk : String :=
  "Take a politically conservative stance on the issue being argued. Your goal is to completely dismantle the opposing position."

/-- `tone_instruction` in the `dunk` branch (line 45). -/
def su_tone_dunk : String :=
  "DUNK MODE ACTIVATED: Be ruthless, cutting, and mercilessly critical. Call out weak reasoning, expose logical fallacies by name, and demolish their argument piece by piece. Use sharp, incisive language that leaves no room for their position. Be unapologetically aggressive while staying factually grounded. The goal is to completely dismantle their argument and make them regret engaging. This is a debate, and you're here to win decisively."

/-- The `agree` branch reassignments (lines 47-70). -/
def su_stance_agree : String :=
  "AGREE MODE: You are aligned with the final commenter. Reinforce their core points, add supporting context, and strengthen their position without undermining it."

def su_tone_agree : String :=
  "AGREE MODE TONE: Be encouraging, confident, and collaborative. Sound like a thoughtful ally who appreciates the original point and is eager to build on it with useful detail or personal insight."

def su_guidance_agree : String :=
  "AGREE MODE DIRECTIVE: This is not a debate. Focus on amplifying and enhancing the final comment rather than arguing against anyone."

def su_length_agree : String :=
  "LENGTH FLEXIBILITY: Aim to match the length of the comment you're supporting, but you may go up to roughly 150% of its length if needed to add meaningful reinforcement or context."

def su_phase2_agree : String :=
  "Agree mode is collaborative, so no strategic takedown is needed. Provide a brief note such as \"Strategic Analysis: N/A - Agree mode (reinforcing, not debating).\""

def su_phase3_agree : String :=
  "Agree mode does not require anticipating counter-responses. Provide a note such as \"Counter-Response Prediction: N/A - Agree mode.\""

def su_phase4_length_agree : String :=
  "Set your target length to roughly match the original comment, with permission to go up to about 150% if that's helpful for reinforcement"

def su_phase4_counter_agree : String :=
  "- Instead of counter-response planning, explain how each draft will reinforce and expand on the original comment while keeping the supportive tone consistent"

/-- `load_llm_prompt(mode)` with the file content made explicit.  Each
replacement variable takes its default unless the `if/elif` chain on the mode
string reassigns it; then the eight `str.replace` calls run in source order.
`mode_specific_guidance` defaults to `""` (line 18). -/
def loadLlmPrompt (template : String) (mode : String) : String :=
  let stance_instruction :=
    if mode = "friendly" then su_stance_friendly
    else if mode = "dunk" then su_stance_dunk
    else if mode = "agree" then su_stance_agree
    else su_stance_default
  let tone_instruction :=
    if mode = "friendly" then su_tone_friendly
    else if mode = "dunk" then su_tone_dunk
    else if mode = "agree" then su_tone_agree
    else su_tone_default
  let mode_specific_guidance :=
    if mode = "agree" then su_guidance_agree else ""
  let length_requirement :=
    if mode = "agree" then su_length_agree else su_length_default
  let phase2_requirements :=
    if mode = "agree" then su_phase2_agree else su_phase2_default
  let phase3_requirements :=
    if mode = "agree" then su_phase3_agree else su_phase3_default
  let phase4_length_target :=
    if mode = "agree" then su_phase4_length_agree else su_phase4_length_default
  let phase4_counter_guidance :=
    if mode = "agree" then su_phase4_counter_agree else su_phase4_counter_default
  let p1 := pyReplace template "\x7b\x7bSTANCE\x7d\x7d" stance_instruction
  let p2 := pyReplace p1 "\x7b\x7bTONE\x7d\x7d" tone_instruction
  let p3 := pyReplace p2 "\x7b\x7bMODE_SPECIFIC_GUIDANCE\x7d\x7d" mode_specific_guidance
  let p4 := pyReplace p3 "\x7b\x7bLENGTH_REQUIREMENT\x7d\x7d" length_requirement
  let p5 := pyReplace p4 "\x7b\x7bPHASE2_REQUIREMENTS\x7d\x7d" phase2_requirements
  let p6 := pyReplace p5 "\x7b\x7bPHASE3_REQUIREMENTS\x7d\x7d" phase3_requirements
  let p7 := pyReplace p6 "\x7b\x7bPHASE4_LENGTH_TARGET\x7d\x7d" phase4_length_target
  pyReplace p7 "\x7b\x7bPHASE4_COUNTER_GUIDANCE\x7d\x7d" phase4_counter_guidance

/-! The shipped template, modelled from the spec as literal text segments
interleaved with the eight placeholder tokens (in the order the `str.replace`
calls use, which is also the natural reading order of the prompt). -/

def tpSeg0 : List Char :=
  "INSTRUCTIONS FOR LLM:\n\nYou are engaging in an online debate on Reddit.\n\n".data

def tpTok1 : List Char := "\x7b\x7bSTANCE\x7d\x7d".data

def tpSeg1 : List Char := "\n\n".data

def tpTok2 : List Char := "\x7b\x7bTONE\x7d\x7d".data

def tpSeg2 : List Char := "\n\n".data

def tpTok3 : List Char := "\x7b\x7bMODE_SPECIFIC_GUIDANCE\x7d\x7d".data

def tpSeg3 : List Char := "\n\nIMPORTANT RULES:\n- ".data

def tpTok4 : List Char := "\x7b\x7bLENGTH_REQUIREMENT\x7d\x7d".data

def tpSeg4 : List Char := "\n\nPHASE 2:\n".data

def tpTok5 : List Char := "\x7b\x7bPHASE2_REQUIREMENTS\x7d\x7d".data

def tpSeg5 : List Char := "\n\nPHASE 3:\n".data

def tpTok6 : List Char := "\x7b\x7bPHASE3_REQUIREMENTS\x7d\x7d".data

def tpSeg6 : List Char := "\n\nPHASE 4:\n".data

def tpTok7 : List Char := "\x7b\x7bPHASE4_LENGTH_TARGET\x7d\x7d".data

def tpSeg7 : List Char := "\n".data

def tpTok8 : List Char := "\x7b\x7bPHASE4_COUNTER_GUIDANCE\x7d\x7d".data

def tpSeg8 : List Char :=
  "\n\nGenerate a reply to the last comment in the chain below.\n\n---".data

/-- Modelled from the spec: `llm_prompt.txt` is shipped next to
`scraper_utils.py` but is not under `src/`.  Per §3 a `PromptTemplate` is "raw
text containing named placeholders": the eight placeholders substituted in
scraper_utils.py lines 72-79 are the named tokens it contains, each once, and
no other brace runs occur (the repository's test `test_prompt_template.py`
checks that substitution leaves no `\x7b\x7b...\x7d\x7d` token for any
mode). -/
def llmPromptTemplate : String :=
  String.mk (tpSeg0 ++ tpTok1 ++ tpSeg1 ++ tpTok2 ++ tpSeg2 ++ tpTok3 ++ tpSeg3
    ++ tpTok4 ++ tpSeg4 ++ tpTok5 ++ tpSeg5 ++ tpTok6 ++ tpSeg6 ++ tpTok7 ++ tpSeg7
    ++ tpTok8 ++ tpSeg8)

/-- An unresolved template token starts with a double opening brace. -/
def hasUnresolvedPlaceholder (s : String) : Bool :=
  containsSub s.data "\x7b\x7b".data

/-! Substitution lemmas: stepping `pyReplaceAux` over brace-free text, over an
occurrence of the needle, and over text free of the needle. -/

/-- One scan step past a position where the needle does not match. -/
theorem pyReplaceAux_cons (needle repl : List Char) (f : Nat) (acc : List Char)
    (h : Char) (t : List Char)
    (hfail : needle.isPrefixOf (h :: t) = false) :
    pyReplaceAux needle repl (f + 1) acc (h :: t)
      = pyReplaceAux needle repl f (h :: acc) t := by
  rw [pyReplaceAux, hfail, Bool.and_false, if_neg (by simp)]

/-- The scan is done when the text is exhausted, whatever fuel is left. -/
theorem pyReplaceAux_nil (needle repl : List Char) (f : Nat) (acc : List Char) :
    pyReplaceAux needle repl f acc [] = List.reverseAux acc [] := by
  cases f <;> rfl

/-- Scanning brace-free text never matches a needle that starts with an
opening brace. -/
theorem pyReplaceAux_skip (nt repl : List Char) :
    ∀ (P : List Char), (∀ c ∈ P, c ≠ '\x7b') → ∀ (f : Nat) (acc rest : List Char),
      pyReplaceAux ('\x7b' :: nt) repl (P.length + f) acc (P ++ rest)
        = pyReplaceAux ('\x7b' :: nt) repl f (List.reverseAux P acc) rest := by
  intro P
  induction P with
  | nil =>
    intro _ f acc rest
    simp [List.reverseAux]
  | cons c P' ih =>
    intro hP f acc rest
    have hc : c ≠ '\x7b' := hP c (List.mem_cons_self c P')
    have hlen : (c :: P').length + f = (P'.length + f) + 1 := by
      simp [List.length_cons]
      omega
    have hpre : ('\x7b' :: nt).isPrefixOf (c :: (P' ++ rest)) = false := by
      rw [List.isPrefixOf]
      have hbeq : ('\x7b' == c) = false := beq_eq_false_iff_ne.mpr (Ne.symm hc)
      rw [hbeq, Bool.false_and]
    rw [hlen, List.cons_append, pyReplaceAux_cons _ _ _ _ _ _ hpre]
    exact ih (fun d hd => hP d (List.mem_cons_of_mem c hd)) f (c :: acc) rest

/-- At an occurrence of the (non-empty) needle, the scan emits the
replacement and drops the needle. -/
theorem pyReplaceAux_match (n0 : Char) (nt repl rest : List Char) (f : Nat)
    (acc : List Char) :
    pyReplaceAux (n0 :: nt) repl (f + 1) acc ((n0 :: nt) ++ rest)
      = pyReplaceAux (n0 :: nt) repl f (List.reverseAux repl acc) rest := by
  have hpre : (n0 :: nt).isPrefixOf ((n0 :: nt) ++ rest) = true :=
    List.isPrefixOf_iff_prefix.mpr (List.prefix_append _ _)
  have hdrop : ((n0 :: nt) ++ rest).drop (n0 :: nt).length = rest :=
    List.drop_left _ _
  rw [List.cons_append, pyReplaceAux, ← List.cons_append, hpre, if_pos (by simp), hdrop]

/-- Scanning text that holds no occurrence of the needle copies it through. -/
theorem pyReplaceAux_no_occurrence (needle repl : List Char) :
    ∀ (T : List Char) (f : Nat) (acc : List Char), T.length ≤ f →
      containsSub T needle = false →
      pyReplaceAux needle repl f acc T = List.reverseAux acc T := by
  intro T
  induction T with
  | nil =>
    intro f acc _ _
    exact pyReplaceAux_nil needle repl f acc
  | cons c T' ih =>
    intro f acc hf hno
    have hpre : needle.isPrefixOf (c :: T') = false := by
      cases hb : needle.isPrefixOf (c :: T') with
      | false => rfl
      | true =>
        rw [containsSub, hb, if_pos rfl] at hno
        exact Bool.noConfusion hno
    have hno' : containsSub T' needle = false := by
      rw [containsSub, hpre] at hno
      simpa using hno
    cases f with
    | zero => simp at hf
    | succ f' =>
      rw [pyReplaceAux_cons _ _ _ _ _ _ hpre]
      have := ih f' (c :: acc) (by simpa using hf) hno'
      rw [this]
      rfl

/-- A list without opening braces holds no token that starts with one. -/
theorem containsSub_brace_free (nt : List Char) :
    ∀ (L : List Char), (∀ c ∈ L, c ≠ '\x7b') →
      containsSub L ('\x7b' :: nt) = false := by
  intro L
  induction L with
  | nil =>
    intro _
    rw [containsSub]
    simp [List.isPrefixOf]
  | cons c L' ih =>
    intro hL
    have hc : c ≠ '\x7b' := hL c (List.mem_cons_self c L')
    have hpre : ('\x7b' :: nt).isPrefixOf (c :: L') = false := by
      rw [List.isPrefixOf]
      have hbeq : ('\x7b' == c) = false := beq_eq_false_iff_ne.mpr (Ne.symm hc)
      rw [hbeq, Bool.false_and]
    rw [containsSub, hpre]
    simp only [Bool.false_eq_true, if_false]
    exact ih (fun d hd => hL d (List.mem_cons_of_mem c hd))

/-- Brace-freeness is preserved by concatenation. -/
theorem braceFree_append {A B : List Char}
    (ha : ∀ c ∈ A, c ≠ '\x7b') (hb : ∀ c ∈ B, c ≠ '\x7b') :
    ∀ c ∈ A ++ B, c ≠ '\x7b' := by
  intro c hc
  rcases List.mem_append.mp hc with h | h
  · exact ha c h
  · exact hb c h

/-- One complete `str.replace` pass: when the text splits as a brace-free
prefix, a single occurrence of the brace-headed pattern, and a tail free of
the pattern, the pass replaces exactly that occurrence. -/
theorem pyReplace_decomp (s pat repl : String) (P T : List Char)
    (hs : s.data = P ++ pat.data ++ T)
    (hP : ∀ c ∈ P, c ≠ '\x7b')
    (hpat : pat.data.head? = some '\x7b')
    (hT : containsSub T pat.data = false) :
    (pyReplace s pat repl).data = P ++ repl.data ++ T := by
  obtain ⟨nt, hnt⟩ : ∃ nt, pat.data = '\x7b' :: nt := by
    cases hd : pat.data with
    | nil => rw [hd] at hpat; exact absurd hpat (by simp)
    | cons a b =>
      rw [hd] at hpat
      simp only [List.head?, Option.some.injEq] at hpat
      exact ⟨b, by rw [hpat]⟩
  have hfuel : s.data.length = P.length + ((nt.length + T.length) + 1) := by
    rw [hs, hnt]
    simp only [List.length_append, List.length_cons]
    omega
  rw [pyReplace]
  show pyReplaceAux pat.data repl.data s.data.length [] s.data = P ++ repl.data ++ T
  rw [hfuel, hs, hnt, List.append_assoc,
    pyReplaceAux_skip nt repl.data P hP ((nt.length + T.length) + 1) [] (('\x7b' :: nt) ++ T),
    pyReplaceAux_match '\x7b' nt repl.data T (nt.length + T.length) (List.reverseAux P []),
    pyReplaceAux_no_occurrence ('\x7b' :: nt) repl.data T (nt.length + T.length)
      (List.reverseAux repl.data (List.reverseAux P [])) (by omega) (hnt ▸ hT)]
  simp [List.reverseAux_eq, List.append_assoc]

/-! The template tails that remain ahead of the scan after each of the eight
substitutions. -/

def tpTail8 : List Char := tpSeg8

def tpTail7 : List Char := tpSeg7 ++ tpTok8 ++ tpTail8

def tpTail6 : List Char := tpSeg6 ++ tpTok7 ++ tpTail7

def tpTail5 : List Char := tpSeg5 ++ tpTok6 ++ tpTail6

def tpTail4 : List Char := tpSeg4 ++ tpTok5 ++ tpTail5

def tpTail3 : List Char := tpSeg3 ++ tpTok4 ++ tpTail4

def tpTail2 : List Char := tpSeg2 ++ tpTok3 ++ tpTail3

def tpTail1 : List Char := tpSeg1 ++ tpTok2 ++ tpTail2

set_option maxRecDepth 200000 in
/-- Substituting the eight placeholder tokens of the shipped template with any
brace-free texts yields a prompt with no unresolved `\x7b\x7b...\x7d\x7d`
token. -/
theorem chain_brace_free (x1 x2 x3 x4 x5 x6 x7 x8 : String)
    (h1 : ∀ c ∈ x1.data, c ≠ '\x7b') (h2 : ∀ c ∈ x2.data, c ≠ '\x7b')
    (h3 : ∀ c ∈ x3.data, c ≠ '\x7b') (h4 : ∀ c ∈ x4.data, c ≠ '\x7b')
    (h5 : ∀ c ∈ x5.data, c ≠ '\x7b') (h6 : ∀ c ∈ x6.data, c ≠ '\x7b')
    (h7 : ∀ c ∈ x7.data, c ≠ '\x7b') (h8 : ∀ c ∈ x8.data, c ≠ '\x7b') :
    hasUnresolvedPlaceholder
      (pyReplace (pyReplace (pyReplace (pyReplace (pyReplace (pyReplace (pyReplace
        (pyReplace llmPromptTemplate "\x7b\x7bSTANCE\x7d\x7d" x1)
        "\x7b\x7bTONE\x7d\x7d" x2)
        "\x7b\x7bMODE_SPECIFIC_GUIDANCE\x7d\x7d" x3)
        "\x7b\x7bLENGTH_REQUIREMENT\x7d\x7d" x4)
        "\x7b\x7bPHASE2_REQUIREMENTS\x7d\x7d" x5)
        "\x7b\x7bPHASE3_REQUIREMENTS\x7d\x7d" x6)
        "\x7b\x7bPHASE4_LENGTH_TARGET\x7d\x7d" x7)
        "\x7b\x7bPHASE4_COUNTER_GUIDANCE\x7d\x7d" x8) = false := by
  have b0 : ∀ c ∈ tpSeg0, c ≠ '\x7b' := by decide
  have b1 : ∀ c ∈ tpSeg1, c ≠ '\x7b' := by decide
  have b2 : ∀ c ∈ tpSeg2, c ≠ '\x7b' := by decide
  have b3 : ∀ c ∈ tpSeg3, c ≠ '\x7b' := by decide
  have b4 : ∀ c ∈ tpSeg4, c ≠ '\x7b' := by decide
  have b5 : ∀ c ∈ tpSeg5, c ≠ '\x7b' := by decide
  have b6 : ∀ c ∈ tpSeg6, c ≠ '\x7b' := by decide
  have b7 : ∀ c ∈ tpSeg7, c ≠ '\x7b' := by decide
  have b8 : ∀ c ∈ tpSeg8, c ≠ '\x7b' := by decide
  have e1 : (pyReplace llmPromptTemplate "\x7b\x7bSTANCE\x7d\x7d" x1).data
      = tpSeg0 ++ x1.data ++ tpTail1 :=
    pyReplace_decomp _ _ _ tpSeg0 tpTail1
      (by simp [llmPromptTemplate, tpTok1, tpTail1, tpTail2, tpTail3, tpTail4,
        tpTail5, tpTail6, tpTail7, tpTail8, List.append_assoc])
      b0 (by decide) (by decide)
  have e2 : (pyReplace (pyReplace llmPromptTemplate "\x7b\x7bSTANCE\x7d\x7d" x1)
        "\x7b\x7bTONE\x7d\x7d" x2).data
      = (tpSeg0 ++ x1.data ++ tpSeg1) ++ x2.data ++ tpTail2 :=
    pyReplace_decomp _ _ _ (tpSeg0 ++ x1.data ++ tpSeg1) tpTail2
      (by rw [e1]; simp [tpTok2, tpTail1, List.append_assoc])
      (braceFree_append (braceFree_append b0 h1) b1) (by decide) (by decide)
  have e3 : (pyReplace (pyReplace (pyReplace llmPromptTemplate
        "\x7b\x7bSTANCE\x7d\x7d" x1) "\x7b\x7bTONE\x7d\x7d" x2)
        "\x7b\x7bMODE_SPECIFIC_GUIDANCE\x7d\x7d" x3).data
      = ((tpSeg0 ++ x1.data ++ tpSeg1) ++ x2.data ++ tpSeg2) ++ x3.data ++ tpTail3 :=
    pyReplace_decomp _ _ _ ((tpSeg0 ++ x1.data ++ tpSeg1) ++ x2.data ++ tpSeg2) tpTail3
      (by rw [e2]; simp [tpTok3, tpTail2, List.append_assoc])
      (braceFree_append (braceFree_append (braceFree_append (braceFree_append b0 h1) b1) h2) b2)
      (by decide) (by decide)
  have e4 : (pyReplace (pyReplace (pyReplace (pyReplace llmPromptTemplate
        "\x7b\x7bSTANCE\x7d\x7d" x1) "\x7b\x7bTONE\x7d\x7d" x2)
        "\x7b\x7bMODE_SPECIFIC_GUIDANCE\x7d\x7d" x3)
        "\x7b\x7bLENGTH_REQUIREMENT\x7d\x7d" x4).data
      = (((tpSeg0 ++ x1.data ++ tpSeg1) ++ x2.data ++ tpSeg2) ++ x3.data ++ tpSeg3)
          ++ x4.data ++ tpTail4 :=
    pyReplace_decomp _ _ _
      (((tpSeg0 ++ x1.data ++ tpSeg1) ++ x2.data ++ tpSeg2) ++ x3.data ++ tpSeg3) tpTail4
      (by rw [e3]; simp [tpTok4, tpTail3, List.append_assoc])
      (braceFree_append (braceFree_append (braceFree_append (braceFree_append
        (braceFree_append (braceFree_append b0 h1) b1) h2) b2) h3) b3)
      (by decide) (by decide)
  have e5 : (pyReplace (pyReplace (pyReplace (pyReplace (pyReplace llmPromptTemplate
        "\x7b\x7bSTANCE\x7d\x7d" x1) "\x7b\x7bTONE\x7d\x7d" x2)
        "\x7b\x7bMODE_SPECIFIC_GUIDANCE\x7d\x7d" x3)
        "\x7b\x7bLENGTH_REQUIREMENT\x7d\x7d" x4)
        "\x7b\x7bPHASE2_REQUIREMENTS\x7d\x7d" x5).data
      = ((((tpSeg0 ++ x1.data ++ tpSeg1) ++ x2.data ++ tpSeg2) ++ x3.data ++ tpSeg3)
          ++ x4.data ++ tpSeg4) ++ x5.data ++ tpTail5 :=
    pyReplace_decomp _ _ _
      ((((tpSeg0 ++ x1.data ++ tpSeg1) ++ x2.data ++ tpSeg2) ++ x3.data ++ tpSeg3)
        ++ x4.data ++ tpSeg4) tpTail5
      (by rw [e4]; simp [tpTok5, tpTail4, List.append_assoc])
      (braceFree_append (braceFree_append (braceFree_append (braceFree_append
        (braceFree_append (braceFree_append (braceFree_append (braceFree_append
          b0 h1) b1) h2) b2) h3) b3) h4) b4)
      (by decide) (by decide)
  have e6 : (pyReplace (pyReplace (pyReplace (pyReplace (pyReplace (pyReplace
        llmPromptTemplate
        "\x7b\x7bSTANCE\x7d\x7d" x1) "\x7b\x7bTONE\x7d\x7d" x2)
        "\x7b\x7bMODE_SPECIFIC_GUIDANCE\x7d\x7d" x3)
        "\x7b\x7bLENGTH_REQUIREMENT\x7d\x7d" x4)
        "\x7b\x7bPHASE2_REQUIREMENTS\x7d\x7d" x5)
        "\x7b\x7bPHASE3_REQUIREMENTS\x7d\x7d" x6).data
      = (((((tpSeg0 ++ x1.data ++ tpSeg1) ++ x2.data ++ tpSeg2) ++ x3.data ++ tpSeg3)
          ++ x4.data ++ tpSeg4) ++ x5.data ++ tpSeg5) ++ x6.data ++ tpTail6 :=
    pyReplace_decomp _ _ _
      (((((tpSeg0 ++ x1.data ++ tpSeg1) ++ x2.data ++ tpSeg2) ++ x3.data ++ tpSeg3)
        ++ x4.data ++ tpSeg4) ++ x5.data ++ tpSeg5) tpTail6
      (by rw [e5]; simp [tpTok6, tpTail5, List.append_assoc])
      (braceFree_append (braceFree_append (braceFree_append (braceFree_append
        (braceFree_append (braceFree_append (braceFree_append (braceFree_append
          (braceFree_append (braceFree_append b0 h1) b1) h2) b2) h3) b3) h4) b4) h5) b5)
      (by decide) (by decide)
  have e7 : (pyReplace (pyReplace (pyReplace (pyReplace (pyReplace (pyReplace (pyReplace
        llmPromptTemplate
        "\x7b\x7bSTANCE\x7d\x7d" x1) "\x7b\x7bTONE\x7d\x7d" x2)
        "\x7b\x7bMODE_SPECIFIC_GUIDANCE\x7d\x7d" x3)
        "\x7b\x7bLENGTH_REQUIREMENT\x7d\x7d" x4)
        "\x7b\x7bPHASE2_REQUIREMENTS\x7d\x7d" x5)
        "\x7b\x7bPHASE3_REQUIREMENTS\x7d\x7d" x6)
        "\x7b\x7bPHASE4_LENGTH_TARGET\x7d\x7d" x7).data
      = ((((((tpSeg0 ++ x1.data ++ tpSeg1) ++ x2.data ++ tpSeg2) ++ x3.data ++ tpSeg3)
          ++ x4.data ++ tpSeg4) ++ x5.data ++ tpSeg5) ++ x6.data ++ tpSeg6)
          ++ x7.data ++ tpTail7 :=
    pyReplace_decomp _ _ _
      ((((((tpSeg0 ++ x1.data ++ tpSeg1) ++ x2.data ++ tpSeg2) ++ x3.data ++ tpSeg3)
        ++ x4.data ++ tpSeg4) ++ x5.data ++ tpSeg5) ++ x6.data ++ tpSeg6) tpTail7
      (by rw [e6]; simp [tpTok7, tpTail6, List.append_assoc])
      (braceFree_append (braceFree_append (braceFree_append (braceFree_append
        (braceFree_append (braceFree_append (braceFree_append (braceFree_append
          (braceFree_append (braceFree_append (braceFree_append (braceFree_append
            b0 h1) b1) h2) b2) h3) b3) h4) b4) h5) b5) h6) b6)
      (by decide) (by decide)
  have e8 : (pyReplace (pyReplace (pyReplace (pyReplace (pyReplace (pyReplace (pyReplace
        (pyReplace llmPromptTemplate
        "\x7b\x7bSTANCE\x7d\x7d" x1) "\x7b\x7bTONE\x7d\x7d" x2)
        "\x7b\x7bMODE_SPECIFIC_GUIDANCE\x7d\x7d" x3)
        "\x7b\x7bLENGTH_REQUIREMENT\x7d\x7d" x4)
        "\x7b\x7bPHASE2_REQUIREMENTS\x7d\x7d" x5)
        "\x7b\x7bPHASE3_REQUIREMENTS\x7d\x7d" x6)
        "\x7b\x7bPHASE4_LENGTH_TARGET\x7d\x7d" x7)
        "\x7b\x7bPHASE4_COUNTER_GUIDANCE\x7d\x7d" x8).data
      = (((((((tpSeg0 ++ x1.data ++ tpSeg1) ++ x2.data ++ tpSeg2) ++ x3.data ++ tpSeg3)
          ++ x4.data ++ tpSeg4) ++ x5.data ++ tpSeg5) ++ x6.data ++ tpSeg6)
          ++ x7.data ++ tpSeg7) ++ x8.data ++ tpTail8 :=
    pyReplace_decomp _ _ _
      (((((((tpSeg0 ++ x1.data ++ tpSeg1) ++ x2.data ++ tpSeg2) ++ x3.data ++ tpSeg3)
        ++ x4.data ++ tpSeg4) ++ x5.data ++ tpSeg5) ++ x6.data ++ tpSeg6)
        ++ x7.data ++ tpSeg7) tpTail8
      (by rw [e7]; simp [tpTok8, tpTail7, List.append_assoc])
      (braceFree_append (braceFree_append (braceFree_append (braceFree_append
        (braceFree_append (braceFree_append (braceFree_append (braceFree_append
          (braceFree_append (braceFree_append (braceFree_append (braceFree_append
            (braceFree_append (braceFree_append b0 h1) b1) h2) b2) h3) b3) h4)
              b4) h5) b5) h6) b6) h7) b7)
      (by decide) (by decide)
  rw [hasUnresolvedPlaceholder, e8]
  exact containsSub_brace_free _ _
    (braceFree_append (braceFree_append
      (braceFree_append (braceFree_append (braceFree_append (braceFree_append
        (braceFree_append (braceFree_append (braceFree_append (braceFree_append
          (braceFree_append (braceFree_append (braceFree_append (braceFree_append
            (braceFree_append (braceFree_append b0 h1) b1) h2) b2) h3) b3) h4)
              b4) h5) b5) h6) b6) h7) b7) h8) b8)

set_option maxRecDepth 200000 in
/-- Every mode string resolves the shipped template without leaving an
unresolved token: each replacement text the `if/elif` chain can pick is
brace-free. -/
theorem loadLlmPrompt_no_unresolved (m : String) :
    hasUnresolvedPlaceholder (loadLlmPrompt llmPromptTemplate m) = false := by
  by_cases hf : m = "friendly"
  · subst hf
    exact chain_brace_free _ _ _ _ _ _ _ _ (by decide) (by decide) (by decide)
      (by decide) (by decide) (by decide) (by decide) (by decide)
  · by_cases hd : m = "dunk"
    · subst hd
      exact chain_brace_free _ _ _ _ _ _ _ _ (by decide) (by decide) (by decide)
        (by decide) (by decide) (by decide) (by decide) (by decide)
    · by_cases ha : m = "agree"
      · subst ha
        exact chain_brace_free _ _ _ _ _ _ _ _ (by decide) (by decide) (by decide)
          (by decide) (by decide) (by decide) (by decide) (by decide)
      · simp only [loadLlmPrompt, if_neg hf, if_neg hd, if_neg ha]
        exact chain_brace_free _ _ _ _ _ _ _ _ (by decide) (by decide) (by decide)
          (by decide) (by decide) (by decide) (by decide) (by decide)

/-- A template holding a token outside the eight known placeholder names. -/
def c7BadTemplate : String :=
  "pre \x7b\x7bUNKNOWN_TOKEN\x7d\x7d mid \x7b\x7bSTANCE\x7d\x7d post"

set_option maxRecDepth 1000000 in
/-- C7 counterexample: substitution does not fail when a `\x7b\x7b...\x7d\x7d`
token remains.  `load_llm_prompt` has no post-substitution scan and no failure
path: on a template holding an unrecognized token it returns normally, with
the token still unresolved in the returned prompt, contradicting the claim
that resolution "after substitution fails if any \x7b\x7b...\x7d\x7d token
remains". -/
theorem c7_no_scan_counterexample :
    loadLlmPrompt c7BadTemplate "standard"
      = "pre \x7b\x7bUNKNOWN_TOKEN\x7d\x7d mid " ++ su_stance_default ++ " post"
    ∧ hasUnresolvedPlaceholder (loadLlmPrompt c7BadTemplate "standard") = true := by
  exact ⟨by decide, by decide⟩

set_option maxRecDepth 1000000 in
/-- C7 as amended: prompt-config resolution (`get_prompt_config`) copies the
base table and overwrites the keys present in the Mode's override table by
whole-value replacement — for every Mode and required placeholder the resolved
entry is the override when one is given, else the base entry — succeeding for
every Mode; on tables that leave a required placeholder absent it fails fast
naming the missing keys.  Template substitution (`load_llm_prompt`) replaces
every known `\x7b\x7bNAME\x7d\x7d` token but performs no post-substitution
scan and cannot fail; resolving the shipped template, which contains only the
known placeholders, leaves zero unresolved `\x7b\x7b...\x7d\x7d` tokens for
every mode. -/
theorem c7_layered_resolution :
    (∀ mode : Mode, ∀ key ∈ PROMPT_PLACEHOLDERS,
      dictLookup (dictUpdate BASE_PROMPT_CONFIG (MODE_PROMPT_OVERRIDES mode)) key
        = (dictLookup (MODE_PROMPT_OVERRIDES mode) key).orElse
            (fun _ => dictLookup BASE_PROMPT_CONFIG key))
    ∧ (∀ mode : Mode, (getPromptConfig mode).toOption
        = some (dictUpdate BASE_PROMPT_CONFIG (MODE_PROMPT_OVERRIDES mode)))
    ∧ (∀ base overrides : List (String × String),
        PROMPT_PLACEHOLDERS.filter
            (fun key => (dictLookup (dictUpdate base overrides) key).isNone) ≠ [] →
        getPromptConfigTables base overrides
          = Except.error (PROMPT_PLACEHOLDERS.filter
              (fun key => (dictLookup (dictUpdate base overrides) key).isNone)))
    ∧ (∀ m ∈ (["agree", "friendly", "standard", "dunk", "fact_check"] : List String),
        hasUnresolvedPlaceholder (loadLlmPrompt llmPromptTemplate m) = false) := by
  refine ⟨by decide, by decide, ?_, fun m _ => loadLlmPrompt_no_unresolved m⟩
  intro base overrides hmiss
  simp only [getPromptConfigTables]
  rw [if_pos hmiss]

set_option maxRecDepth 1000000 in
theorem c7_layered_resolution_witness :
    ("TONE" ∈ PROMPT_PLACEHOLDERS
      ∧ dictLookup (dictUpdate BASE_PROMPT_CONFIG (MODE_PROMPT_OVERRIDES Mode.dunk)) "TONE"
          = (dictLookup (MODE_PROMPT_OVERRIDES Mode.dunk) "TONE").orElse
              (fun _ => dictLookup BASE_PROMPT_CONFIG "TONE"))
    ∧ (PROMPT_PLACEHOLDERS.filter
          (fun key => (dictLookup (dictUpdate [] []) key).isNone) ≠ []
      ∧ getPromptConfigTables [] []
          = Except.error (PROMPT_PLACEHOLDERS.filter
              (fun key => (dictLookup (dictUpdate [] []) key).isNone)))
    ∧ ("standard" ∈ (["agree", "friendly", "standard", "dunk", "fact_check"] : List String)
      ∧ hasUnresolvedPlaceholder (loadLlmPrompt llmPromptTemplate "standard") = false) :=
  ⟨⟨by decide, c7_layered_resolution.1 Mode.dunk "TONE" (by decide)⟩,
   ⟨by decide, c7_layered_resolution.2.2.1 [] [] (by decide)⟩,
   ⟨by decide, c7_layered_resolution.2.2.2 "standard" (by decide)⟩⟩

end RedditCommenter
